import Mathlib

/-
Verification of the Contestlet contest-management core against its
natural-language specification.  The repository ships only HTTP test
harnesses and a data-migration script; the API implementation itself is
absent, so every definition below is modelled from the specification's
words (OTP authentication with rate limiting, contest eligibility state
machine, duplicate-entry rule, winner selection, compliance validation,
geolocation query validation).
-/

deriving instance DecidableEq for Except

namespace Contestlet

/-- Modelled from the spec: the error taxonomy of section 7; the
implementation that raises these HTTP-level errors is missing from the
repository. -/
inductive Err where
  | InvalidPhoneFormat
  | RateLimited
  | NoPendingChallenge
  | CodeMismatch
  | ChallengeExhausted
  | InvalidCoordinates
  | ContestNotOpen
  | ContestNotEnded
  | DuplicateEntry
  | MissingRequiredField (field : String)
  | NotFound
  deriving DecidableEq, Repr

/-- Modelled from the spec: the four eligibility states of the
ContestEligibility state machine (section 4.4); no implementation is
present in the repository. -/
inductive ContestState where
  | NotStarted
  | Active
  | Ended
  | Inactive
  deriving DecidableEq, Repr

/-- Modelled from the spec: OfficialRules record (section 3); the five
mandatory fields plus the optional terms URL.  Instants are UTC integers,
money is a rational. -/
structure OfficialRules where
  eligibilityText : String
  sponsorName : String
  startDate : Int
  endDate : Int
  prizeValueUsd : Rat
  termsUrl : Option String
  deriving DecidableEq, Repr

/-- Modelled from the spec: Contest record (section 3) with location,
time window, active flag and official rules. -/
structure Contest where
  id : Nat
  name : String
  lat : Rat
  lng : Rat
  startTime : Int
  endTime : Int
  active : Bool
  officialRules : OfficialRules
  deriving DecidableEq, Repr

/-- Modelled from the spec: Entry record (section 3): one row per
(contest, user) with the entry instant. -/
structure Entry where
  contestId : Nat
  userId : String
  enteredAt : Int
  deriving DecidableEq, Repr

/-- Modelled from the spec: the eligibility state machine of section 4.4,
a pure function of (now, contest).  The Inactive state is listed as
holding whenever the active flag is false, regardless of the time
window, so it is checked first. -/
def contestState (c : Contest) (now : Int) : ContestState :=
  if c.active = false then ContestState.Inactive
  else if now < c.startTime then ContestState.NotStarted
  else if now < c.endTime then ContestState.Active
  else ContestState.Ended

/-- Boolean match of an entry against a (contest, user) pair. -/
def entryMatches (cid : Nat) (uid : String) (e : Entry) : Bool :=
  e.contestId == cid && e.userId == uid

/-- Whether the entry set already holds an entry for (contest, user). -/
def hasEntry (es : List Entry) (cid : Nat) (uid : String) : Bool :=
  es.any (entryMatches cid uid)

/-- Number of entries stored for a (contest, user) pair. -/
def countEntries (es : List Entry) (cid : Nat) (uid : String) : Nat :=
  (es.filter (entryMatches cid uid)).length

/-- Modelled from the spec: `enterContest` (sections 4.4, 6, 8); the
endpoint implementation is missing from the repository.  The temporal
eligibility gate is evaluated first (spec section 8: outside the open
window the call fails with ContestNotOpen), then the orthogonal
duplicate-entry rule; on success the new entry is appended. -/
def enterContest (c : Contest) (uid : String) (now : Int) (es : List Entry) :
    Except Err (List Entry) :=
  if contestState c now = ContestState.Active then
    if hasEntry es c.id uid then Except.error Err.DuplicateEntry
    else Except.ok (es ++ [⟨c.id, uid, now⟩])
  else Except.error Err.ContestNotOpen

/-- State reached by one `enterContest` attempt: the new entry set on
success, the unchanged one on rejection. -/
def enterStep (c : Contest) (uid : String) (es : List Entry) (t : Int) : List Entry :=
  match enterContest c uid t es with
  | Except.ok es2 => es2
  | Except.error _ => es

/-- Entry set after a sequence of `enterContest` attempts at the given
instants. -/
def enterMany (c : Contest) (uid : String) (times : List Int) (es : List Entry) :
    List Entry :=
  match times with
  | [] => es
  | t :: ts => enterMany c uid ts (enterStep c uid es t)

/-- Modelled from the spec: the authenticated user's own entry listing
(GET /entries/me); returns every stored entry belonging to the user. -/
def myEntries (es : List Entry) (uid : String) : List Entry :=
  es.filter (fun e => e.userId == uid)

lemma contestState_active_iff (c : Contest) (now : Int) :
    contestState c now = ContestState.Active ↔
      (c.active = true ∧ c.startTime ≤ now ∧ now < c.endTime) := by
  unfold contestState
  split_ifs with h1 h2 h3 <;> simp_all

lemma hasEntry_pos (es : List Entry) (cid : Nat) (uid : String) :
    hasEntry es cid uid = true ↔ 0 < countEntries es cid uid := by
  unfold hasEntry countEntries
  rw [List.any_eq_true, List.length_pos]
  constructor
  · rintro ⟨e, he, hm⟩ hnil
    exact (List.filter_eq_nil_iff.mp hnil) e he hm
  · intro hne
    obtain ⟨e, he⟩ := List.exists_mem_of_ne_nil _ hne
    exact ⟨e, (List.mem_filter.mp he).1, (List.mem_filter.mp he).2⟩

lemma countEntries_append_one (es : List Entry) (cid : Nat) (uid : String) (t : Int) :
    countEntries (es ++ [⟨cid, uid, t⟩]) cid uid = countEntries es cid uid + 1 := by
  simp [countEntries, entryMatches, List.filter_append]

lemma enterContest_dup (c : Contest) (uid : String) (t : Int) (es : List Entry)
    (hd : hasEntry es c.id uid = true) :
    enterStep c uid es t = es := by
  unfold enterStep enterContest
  by_cases hA : contestState c t = ContestState.Active
  · simp [hA, hd]
  · simp [hA]

lemma enterMany_count (c : Contest) (uid : String) :
    ∀ (times : List Int) (es : List Entry), countEntries es c.id uid = 1 →
      countEntries (enterMany c uid times es) c.id uid = 1 := by
  intro times
  induction times with
  | nil => intro es h; exact h
  | cons t ts ih =>
    intro es h
    rw [enterMany]
    refine ih _ ?_
    rw [enterContest_dup c uid t es ((hasEntry_pos es c.id uid).mpr (by omega))]
    exact h

/-- Modelled from the spec: WinnerSelectionResult record (section 3). -/
structure WinnerSelectionResult where
  success : Bool
  message : String
  totalEntries : Nat
  selectedEntry : Option Entry
  deriving DecidableEq, Repr

/-- Modelled from the spec: `canSelectWinner` (section 4.4) is true only
in the Ended state; the endpoint implementation is missing from the
repository. -/
def canSelectWinner (c : Contest) (now : Int) : Bool :=
  contestState c now == ContestState.Ended

/-- Modelled from the spec: `selectWinner` (section 4.5); the endpoint
implementation is missing from the repository.  The draw uses an
injected random index `pick`, reduced modulo the entry count so each
entry can be selected; an empty entry set yields a non-error result with
success set to false. -/
def selectWinner (c : Contest) (entries : List Entry) (now : Int) (pick : Nat) :
    Except Err WinnerSelectionResult :=
  if canSelectWinner c now then
    if entries.isEmpty then
      Except.ok ⟨false, "Contest has no entries", 0, none⟩
    else
      Except.ok ⟨true, "Winner selected", entries.length,
        entries.get? (pick % entries.length)⟩
  else Except.error Err.ContestNotEnded

/-- Concrete official-rules record used by the witnesses. -/
def rules0 : OfficialRules :=
  ⟨"Must be 18+ and a resident of the United States", "Contestlet Test Inc.",
    0, 100, 1000, none⟩

/-- Concrete contest open on the window [0, 100) used by the witnesses. -/
def c0 : Contest :=
  ⟨1, "Test Contest", 37, -122, 0, 100, true, rules0⟩

/-- Concrete contest whose window [0, 100) has ended by instant 150. -/
def cEnded : Contest :=
  ⟨2, "Ended Contest", 37, -122, 0, 100, true, rules0⟩

/-- Claim C1 counterexample: at instant 50 the contest c0 is active and
the instant lies inside [startTime, endTime), yet `enterContest` for a
user who already holds an entry fails with DuplicateEntry rather than
succeeding, so the claimed equivalence is false as stated. -/
theorem enterContest_counterexample :
    (c0.active = true ∧ c0.startTime ≤ 50 ∧ 50 < c0.endTime)
    ∧ enterContest c0 "u" 50 [⟨1, "u", 10⟩] = Except.error Err.DuplicateEntry := by
  decide

/-- Claim C1 (amended): provided the user holds no prior entry for the
contest, `enterContest` succeeds iff now lies in [startTime, endTime)
and the active flag is true; whenever that temporal condition fails the
call fails with ContestNotOpen (regardless of prior entries the gate is
evaluated first, so the error is ContestNotOpen there even for
duplicate holders). -/
theorem enterContest_open_iff (c : Contest) (uid : String) (now : Int)
    (es : List Entry) (hdup : hasEntry es c.id uid = false) :
    ((∃ es2, enterContest c uid now es = Except.ok es2) ↔
      (c.active = true ∧ c.startTime ≤ now ∧ now < c.endTime))
    ∧ (¬(c.active = true ∧ c.startTime ≤ now ∧ now < c.endTime) →
        ∀ es3 : List Entry,
          enterContest c uid now es3 = Except.error Err.ContestNotOpen) := by
  constructor
  · constructor
    · rintro ⟨es2, h⟩
      by_cases hA : contestState c now = ContestState.Active
      · exact (contestState_active_iff c now).mp hA
      · simp [enterContest, hA] at h
    · intro hcond
      refine ⟨es ++ [⟨c.id, uid, now⟩], ?_⟩
      simp [enterContest, (contestState_active_iff c now).mpr hcond, hdup]
  · intro hcond es3
    have hA : contestState c now ≠ ContestState.Active := fun hc =>
      hcond ((contestState_active_iff c now).mp hc)
    simp [enterContest, hA]

/-- Claim C1 witness: for the concrete open contest c0 at instant 50 the
entry of a fresh user succeeds, and at instant 200 (past endTime) the
call fails with ContestNotOpen. -/
theorem enterContest_open_iff_witness :
    (∃ es2, enterContest c0 "fresh" 50 [] = Except.ok es2)
    ∧ enterContest c0 "fresh" 200 [] = Except.error Err.ContestNotOpen := by
  refine ⟨(enterContest_open_iff c0 "fresh" 50 [] (by decide)).1.mpr (by decide), ?_⟩
  exact (enterContest_open_iff c0 "fresh" 200 [] (by decide)).2 (by decide) []

/-- Claim C3: once a user's entry for a contest is stored, exactly one
entry for the (contest, user) pair exists: a second `enterContest` call
made while the contest is open fails with DuplicateEntry, and after any
further sequence of attempts exactly one entry for the pair persists. -/
theorem entry_unique (c : Contest) (uid : String) (now1 : Int)
    (es es2 : List Entry) (h0 : countEntries es c.id uid = 0)
    (h1 : enterContest c uid now1 es = Except.ok es2) :
    countEntries es2 c.id uid = 1
    ∧ (∀ now2, contestState c now2 = ContestState.Active →
        enterContest c uid now2 es2 = Except.error Err.DuplicateEntry)
    ∧ ∀ times : List Int, countEntries (enterMany c uid times es2) c.id uid = 1 := by
  unfold enterContest at h1
  split_ifs at h1 with hA hD
  have h2 := Except.ok.inj h1
  subst h2
  have hcount : countEntries (es ++ [(⟨c.id, uid, now1⟩ : Entry)]) c.id uid = 1 := by
    rw [countEntries_append_one, h0]
  refine ⟨hcount, ?_, ?_⟩
  · intro now2 hA2
    have hd : hasEntry (es ++ [(⟨c.id, uid, now1⟩ : Entry)]) c.id uid = true :=
      (hasEntry_pos _ c.id uid).mpr (by omega)
    simp [enterContest, hA2, hd]
  · intro times
    exact enterMany_count c uid times _ hcount

/-- Claim C3 witness: with the concrete open contest c0, after the entry
of user u at instant 50 is stored, an immediate retry at instant 60
fails with DuplicateEntry and two further attempts leave exactly one
stored entry for the pair. -/
theorem entry_unique_witness :
    countEntries (enterMany c0 "u" [60, 70] [⟨1, "u", 50⟩]) 1 "u" = 1
    ∧ enterContest c0 "u" 60 [⟨1, "u", 50⟩] = Except.error Err.DuplicateEntry := by
  have H := entry_unique c0 "u" 50 [] [⟨1, "u", 50⟩] (by decide) (by decide)
  exact ⟨H.2.2 [60, 70], H.2.1 60 (by decide)⟩

/-- Claim C4: `canSelectWinner` is true only in the Ended state (so only
when endTime ≤ now), and a `selectWinner` attempt in any other state is
rejected with the typed error ContestNotEnded rather than crashing. -/
theorem selectWinner_requires_ended (c : Contest) (now : Int) :
    (canSelectWinner c now = true →
      contestState c now = ContestState.Ended ∧ c.endTime ≤ now)
    ∧ (contestState c now ≠ ContestState.Ended →
        ∀ (entries : List Entry) (pick : Nat),
          selectWinner c entries now pick = Except.error Err.ContestNotEnded) := by
  have hb : canSelectWinner c now = true ↔
      contestState c now = ContestState.Ended := by
    simp [canSelectWinner]
  constructor
  · intro h
    refine ⟨hb.mp h, ?_⟩
    have he := hb.mp h
    unfold contestState at he
    split_ifs at he
    simp_all
  · intro h entries pick
    simp [selectWinner, hb, h]

/-- Claim C4 witness: the concrete contest c0 is still active at
instant 50, and the winner-selection attempt there is rejected with
ContestNotEnded. -/
theorem selectWinner_requires_ended_witness :
    selectWinner c0 [] 50 0 = Except.error Err.ContestNotEnded :=
  (selectWinner_requires_ended c0 50).2 (by decide) [] 0

/-- Claim C5: on an ended contest whose entry set is empty,
`selectWinner` returns a non-error result whose success flag is false,
whose totalEntries is 0 and whose message is the explanatory
"Contest has no entries". -/
theorem selectWinner_no_entries (c : Contest) (now : Int) (pick : Nat)
    (h : contestState c now = ContestState.Ended) :
    selectWinner c [] now pick =
      Except.ok ⟨false, "Contest has no entries", 0, none⟩ := by
  simp [selectWinner, canSelectWinner, h]

/-- Claim C5 witness: the concrete ended contest cEnded at instant 150
with no entries yields success false, totalEntries 0 and the
"no entries" message. -/
theorem selectWinner_no_entries_witness :
    selectWinner cEnded [] 150 0 =
      Except.ok ⟨false, "Contest has no entries", 0, none⟩ :=
  selectWinner_no_entries cEnded 150 0 (by decide)

/-- Claim C10: immediately after a user's `enterContest` call succeeds,
the user's own entry listing contains the entry just created for that
contest. -/
theorem entries_me_after_enter (c : Contest) (uid : String) (now : Int)
    (es es2 : List Entry) (h : enterContest c uid now es = Except.ok es2) :
    Entry.mk c.id uid now ∈ myEntries es2 uid := by
  unfold enterContest at h
  split_ifs at h with hA hD
  have h2 := Except.ok.inj h
  subst h2
  simp [myEntries, List.mem_filter]

/-- Claim C10 witness: after the concrete entry of user u into contest
c0 at instant 50, the user's entry listing contains that entry. -/
theorem entries_me_after_enter_witness :
    Entry.mk 1 "u" 50 ∈ myEntries [Entry.mk 1 "u" 50] "u" :=
  entries_me_after_enter c0 "u" 50 [] [Entry.mk 1 "u" 50] (by decide)

/-- Modelled from the spec: RateLimitWindow record (section 3), a
fixed-window counter per phone. -/
structure RateLimitWindow where
  windowStart : Int
  count : Nat
  deriving DecidableEq, Repr

/-- Modelled from the spec: OTPChallenge record (section 3): pending
code, issue and expiry instants, and attempts remaining.  Exhaustion is
recorded by attemptsRemaining reaching zero, so that later verify
attempts can be told apart from the no-challenge case. -/
structure OTPChallenge where
  code : String
  issuedAt : Int
  expiresAt : Int
  attemptsRemaining : Nat
  deriving DecidableEq, Repr

/-- Modelled from the spec: SessionCredential (section 3), a bearer
token bound to a verified phone with an issue instant. -/
structure SessionCredential where
  phone : String
  issuedAt : Int
  deriving DecidableEq, Repr

/-- Modelled from the spec: the authenticator's configuration (sections
4.1, 4.2, 9): rate-limit threshold and window length, challenge
time-to-live and attempt budget, the phone-format validator and the
injected code generator. -/
structure Config where
  threshold : Nat
  windowLen : Int
  otpTtl : Int
  maxAttempts : Nat
  validPhone : String → Bool
  genCode : Nat → String

/-- Modelled from the spec: the keyed per-phone stores of section 9
(rate-limit windows and pending challenges) plus a counter feeding the
injected code generator. -/
structure AuthState where
  windows : String → Option RateLimitWindow
  challenges : String → Option OTPChallenge
  counter : Nat

/-- Point update of a keyed store. -/
def updateMap {α : Type} (m : String → Option α) (k : String) (v : Option α) :
    String → Option α :=
  fun x => if x = k then v else m x

/-- Modelled from the spec: `checkAndRecord` of the RateLimiter
(section 4.2): fixed-window counter; a fresh or elapsed window restarts
at count one; below the threshold the count is incremented; on breach
the request is refused and the window is left unchanged. -/
def checkAndRecord (threshold : Nat) (windowLen : Int)
    (w : Option RateLimitWindow) (now : Int) : Bool × RateLimitWindow :=
  match w with
  | none => (true, ⟨now, 1⟩)
  | some wi =>
    if wi.windowStart + windowLen ≤ now then (true, ⟨now, 1⟩)
    else if wi.count < threshold then (true, ⟨wi.windowStart, wi.count + 1⟩)
    else (false, wi)

/-- Modelled from the spec: `requestOTP` (section 4.1); the endpoint
implementation is missing from the repository.  Validates the phone
format, consults the rate limiter, then stores a fresh challenge
(replacing any prior one for the phone) with the configured expiry and
attempt budget. -/
def requestOTP (cfg : Config) (st : AuthState) (phone : String) (now : Int) :
    Except Err AuthState :=
  if cfg.validPhone phone = false then Except.error Err.InvalidPhoneFormat
  else
    match checkAndRecord cfg.threshold cfg.windowLen (st.windows phone) now with
    | (false, _) => Except.error Err.RateLimited
    | (true, w2) =>
      Except.ok
        { windows := updateMap st.windows phone (some w2)
          challenges := updateMap st.challenges phone
            (some { code := cfg.genCode st.counter, issuedAt := now,
                    expiresAt := now + cfg.otpTtl,
                    attemptsRemaining := cfg.maxAttempts })
          counter := st.counter + 1 }

/-- Modelled from the spec: `verifyOTP` (section 4.1); the endpoint
implementation is missing from the repository.  No live challenge, or an
expired one, yields NoPendingChallenge; an exhausted challenge yields
ChallengeExhausted; a wrong code yields CodeMismatch and burns one
attempt; a match consumes the challenge and issues a credential. -/
def verifyOTP (st : AuthState) (phone code : String) (now : Int) :
    Except Err SessionCredential × AuthState :=
  match st.challenges phone with
  | none => (Except.error Err.NoPendingChallenge, st)
  | some ch =>
    if ch.expiresAt ≤ now then
      (Except.error Err.NoPendingChallenge,
        { st with challenges := updateMap st.challenges phone none })
    else if ch.attemptsRemaining = 0 then
      (Except.error Err.ChallengeExhausted, st)
    else if code = ch.code then
      (Except.ok ⟨phone, now⟩,
        { st with challenges := updateMap st.challenges phone none })
    else
      (Except.error Err.CodeMismatch,
        { st with
            challenges := updateMap st.challenges phone
              (some { ch with attemptsRemaining := ch.attemptsRemaining - 1 }) })

/-- Outcome list of a sequence of `requestOTP` calls for one phone at
the given instants: `none` for an accepted request, `some e` for a
rejected one; the rejected call leaves the state unchanged. -/
def runRequestOTP (cfg : Config) (phone : String) :
    AuthState → List Int → List (Option Err) × AuthState
  | st, [] => ([], st)
  | st, t :: ts =>
    match requestOTP cfg st phone t with
    | Except.ok st2 =>
      let r := runRequestOTP cfg phone st2 ts
      (none :: r.1, r.2)
    | Except.error e =>
      let r := runRequestOTP cfg phone st ts
      (some e :: r.1, r.2)

lemma runRequestOTP_ok_fst (cfg : Config) (phone : String) (st st2 : AuthState)
    (t : Int) (ts : List Int) (h : requestOTP cfg st phone t = Except.ok st2) :
    (runRequestOTP cfg phone st (t :: ts)).1 =
      none :: (runRequestOTP cfg phone st2 ts).1 := by
  simp [runRequestOTP, h]

lemma runRequestOTP_err_fst (cfg : Config) (phone : String) (st : AuthState)
    (t : Int) (ts : List Int) (e : Err)
    (h : requestOTP cfg st phone t = Except.error e) :
    (runRequestOTP cfg phone st (t :: ts)).1 =
      some e :: (runRequestOTP cfg phone st ts).1 := by
  simp [runRequestOTP, h]

lemma requestOTP_accepted (cfg : Config) (st : AuthState) (phone : String)
    (t : Int) (w : RateLimitWindow) (hv : cfg.validPhone phone = true)
    (hcar : checkAndRecord cfg.threshold cfg.windowLen (st.windows phone) t
      = (true, w)) :
    ∃ st2, requestOTP cfg st phone t = Except.ok st2
      ∧ st2.windows phone = some w := by
  have hreq : requestOTP cfg st phone t = Except.ok
      { windows := updateMap st.windows phone (some w)
        challenges := updateMap st.challenges phone
          (some { code := cfg.genCode st.counter, issuedAt := t,
                  expiresAt := t + cfg.otpTtl,
                  attemptsRemaining := cfg.maxAttempts })
        counter := st.counter + 1 } := by
    simp [requestOTP, hv, hcar]
  refine ⟨_, hreq, ?_⟩
  simp [updateMap]

lemma runRequestOTP_window (cfg : Config) (phone : String) (t0 : Int)
    (hv : cfg.validPhone phone = true) :
    ∀ (ts : List Int) (st : AuthState) (k : Nat),
      st.windows phone = some ⟨t0, k⟩ → k ≤ cfg.threshold →
      (∀ t ∈ ts, t < t0 + cfg.windowLen) →
      (runRequestOTP cfg phone st ts).1 =
        List.replicate (min ts.length (cfg.threshold - k)) none
          ++ List.replicate (ts.length - (cfg.threshold - k))
              (some Err.RateLimited) := by
  intro ts
  induction ts with
  | nil => intro st k hw hk hts; simp [runRequestOTP]
  | cons t ts ih =>
    intro st k hw hk hts
    have hnr : ¬ (t0 + cfg.windowLen ≤ t) := by
      have := hts t (List.mem_cons_self t ts)
      omega
    by_cases hklt : k < cfg.threshold
    · have hcar : checkAndRecord cfg.threshold cfg.windowLen (st.windows phone) t
          = (true, ⟨t0, k + 1⟩) := by
        rw [hw]
        simp [checkAndRecord, hnr, hklt]
      obtain ⟨st2, hreq, hw2⟩ := requestOTP_accepted cfg st phone t _ hv hcar
      rw [runRequestOTP_ok_fst cfg phone st st2 t ts hreq,
        ih st2 (k + 1) hw2 (by omega)
          (fun t2 ht2 => hts t2 (List.mem_cons_of_mem t ht2))]
      have h1 : min (ts.length + 1) (cfg.threshold - k)
          = min ts.length (cfg.threshold - (k + 1)) + 1 := by omega
      have h2 : (ts.length + 1) - (cfg.threshold - k)
          = ts.length - (cfg.threshold - (k + 1)) := by omega
      simp [List.length_cons, h1, h2, List.replicate_succ]
    · have hke : cfg.threshold - k = 0 := by omega
      have hcar : checkAndRecord cfg.threshold cfg.windowLen (st.windows phone) t
          = (false, ⟨t0, k⟩) := by
        rw [hw]
        simp [checkAndRecord, hnr, hklt]
      have hreq : requestOTP cfg st phone t = Except.error Err.RateLimited := by
        simp [requestOTP, hv, hcar]
      rw [runRequestOTP_err_fst cfg phone st t ts _ hreq,
        ih st k hw hk (fun t2 ht2 => hts t2 (List.mem_cons_of_mem t ht2))]
      simp [hke, List.replicate_succ]

/-- Claim C2: for a phone with no live rate-limit window, a sequence of
threshold + 1 `requestOTP` calls whose instants all fall inside the
window opened by the first call has its first threshold calls accepted
and its last call rejected with RateLimited. -/
theorem requestOTP_rate_limit (cfg : Config) (st : AuthState) (phone : String)
    (t0 : Int) (ts : List Int) (hv : cfg.validPhone phone = true)
    (hw : st.windows phone = none) (hN : 0 < cfg.threshold)
    (hlen : ts.length = cfg.threshold)
    (hts : ∀ t ∈ ts, t < t0 + cfg.windowLen) :
    (runRequestOTP cfg phone st (t0 :: ts)).1 =
      List.replicate cfg.threshold none ++ [some Err.RateLimited] := by
  obtain ⟨n, hn⟩ : ∃ n, cfg.threshold = n + 1 := ⟨cfg.threshold - 1, by omega⟩
  have hcar : checkAndRecord cfg.threshold cfg.windowLen (st.windows phone) t0
      = (true, ⟨t0, 1⟩) := by
    rw [hw]
    simp [checkAndRecord]
  obtain ⟨st2, hreq, hw2⟩ := requestOTP_accepted cfg st phone t0 _ hv hcar
  rw [runRequestOTP_ok_fst cfg phone st st2 t0 ts hreq,
    runRequestOTP_window cfg phone t0 hv ts st2 1 hw2 (by omega) hts]
  have h3 : ts.length ⊓ n = n := by omega
  have h4 : ts.length - n = 1 := by omega
  simp [hn, h3, h4, List.replicate_succ]

/-- Concrete configuration for the witnesses: threshold 2, window length
100, code lifetime 300, attempt budget 3, every phone well-formed. -/
def cfg0 : Config :=
  { threshold := 2, windowLen := 100, otpTtl := 300, maxAttempts := 3,
    validPhone := fun _ => true, genCode := fun _ => "123456" }

/-- Concrete empty authenticator state for the witnesses. -/
def st0 : AuthState :=
  { windows := fun _ => none, challenges := fun _ => none, counter := 0 }

/-- Claim C2 witness: with threshold 2, three requests at instants 0, 1,
2 for the same phone are resolved as accepted, accepted, RateLimited. -/
theorem requestOTP_rate_limit_witness :
    (runRequestOTP cfg0 "5551234567" st0 [0, 1, 2]).1 =
      List.replicate 2 none ++ [some Err.RateLimited] :=
  requestOTP_rate_limit cfg0 st0 "5551234567" 0 [1, 2] rfl rfl (by decide)
    rfl (by decide)

/-- Claim C6: for a phone holding a live challenge (unexpired, attempts
left) and a submitted code different from the stored one, `verifyOTP`
fails with CodeMismatch and the stored challenge's attemptsRemaining is
decremented by one; and once attemptsRemaining is zero every verify
attempt on the unexpired challenge fails with ChallengeExhausted. -/
theorem verifyOTP_mismatch_exhaust (st : AuthState) (phone code : String)
    (now : Int) (ch : OTPChallenge) (hch : st.challenges phone = some ch)
    (hexp : now < ch.expiresAt) (hne : code ≠ ch.code) :
    (0 < ch.attemptsRemaining →
      (verifyOTP st phone code now).1 = Except.error Err.CodeMismatch
      ∧ (verifyOTP st phone code now).2.challenges phone
          = some { ch with attemptsRemaining := ch.attemptsRemaining - 1 })
    ∧ (ch.attemptsRemaining = 0 →
        (verifyOTP st phone code now).1 = Except.error Err.ChallengeExhausted) := by
  have hnexp : ¬ (ch.expiresAt ≤ now) := by omega
  constructor
  · intro hpos
    have hz : ¬ (ch.attemptsRemaining = 0) := by omega
    constructor
    · simp [verifyOTP, hch, hnexp, hz, hne]
    · simp [verifyOTP, hch, hnexp, hz, hne, updateMap]
  · intro hz
    simp [verifyOTP, hch, hnexp, hz]

/-- Concrete authenticator state holding one live challenge with a
single remaining attempt for phone p. -/
def stCh : AuthState :=
  { windows := fun _ => none
    challenges := fun x => if x = "p" then some ⟨"111111", 0, 300, 1⟩ else none
    counter := 0 }

/-- Claim C6 witness: a wrong code against the single-attempt challenge
fails with CodeMismatch, and the immediately following attempt fails
with ChallengeExhausted. -/
theorem verifyOTP_mismatch_exhaust_witness :
    (verifyOTP stCh "p" "000000" 10).1 = Except.error Err.CodeMismatch
    ∧ (verifyOTP (verifyOTP stCh "p" "000000" 10).2 "p" "000000" 20).1
        = Except.error Err.ChallengeExhausted := by
  have H1 := verifyOTP_mismatch_exhaust stCh "p" "000000" 10 ⟨"111111", 0, 300, 1⟩
    (by decide) (by decide) (by decide)
  have Ha := H1.1 (by decide)
  refine ⟨Ha.1, ?_⟩
  have H2 := verifyOTP_mismatch_exhaust (verifyOTP stCh "p" "000000" 10).2 "p"
    "000000" 20 ⟨"111111", 0, 300, 0⟩ Ha.2 (by decide) (by decide)
  exact H2.2 rfl

/-- Modelled from the spec: the official-rules part of a
contest-creation payload (sections 3, 4.6); each field may be absent. -/
structure OfficialRulesPayload where
  eligibilityText : Option String
  sponsorName : Option String
  startDate : Option Int
  endDate : Option Int
  prizeValueUsd : Option Rat
  termsUrl : Option String
  deriving DecidableEq, Repr

/-- Modelled from the spec: a contest-creation payload (section 6). -/
structure ContestPayload where
  name : String
  lat : Rat
  lng : Rat
  startTime : Int
  endTime : Int
  active : Bool
  officialRules : OfficialRulesPayload
  deriving DecidableEq, Repr

/-- Requirement that a mandatory text field is present and non-empty. -/
def requireText (field : String) (v : Option String) : Except Err String :=
  match v with
  | none => Except.error (Err.MissingRequiredField field)
  | some s => if s = "" then Except.error (Err.MissingRequiredField field)
              else Except.ok s

/-- Requirement that a mandatory instant field is present. -/
def requireInstant (field : String) (v : Option Int) : Except Err Int :=
  match v with
  | none => Except.error (Err.MissingRequiredField field)
  | some t => Except.ok t

/-- Requirement that the prize value is present, numeric and at least
zero. -/
def requirePrize (v : Option Rat) : Except Err Rat :=
  match v with
  | none => Except.error (Err.MissingRequiredField "prizeValueUsd")
  | some q => if q < 0 then Except.error (Err.MissingRequiredField "prizeValueUsd")
              else Except.ok q

/-- Modelled from the spec: the ComplianceValidator (section 4.6); the
implementation is missing from the repository.  Checks the five
mandatory fields in declaration order and builds the stored record. -/
def validateRules (r : OfficialRulesPayload) : Except Err OfficialRules :=
  match requireText "eligibilityText" r.eligibilityText with
  | Except.error e => Except.error e
  | Except.ok et =>
    match requireText "sponsorName" r.sponsorName with
    | Except.error e => Except.error e
    | Except.ok sn =>
      match requireInstant "startDate" r.startDate with
      | Except.error e => Except.error e
      | Except.ok sd =>
        match requireInstant "endDate" r.endDate with
        | Except.error e => Except.error e
        | Except.ok ed =>
          match requirePrize r.prizeValueUsd with
          | Except.error e => Except.error e
          | Except.ok pv => Except.ok ⟨et, sn, sd, ed, pv, r.termsUrl⟩

/-- Modelled from the spec: `createContest` (sections 3, 6); the
endpoint implementation is missing from the repository.  The compliance
validator runs before persistence; on failure the stored contest list is
returned unchanged. -/
def createContest (p : ContestPayload) (nid : Nat) (cs : List Contest) :
    Except Err Contest × List Contest :=
  match validateRules p.officialRules with
  | Except.error e => (Except.error e, cs)
  | Except.ok r =>
    let c : Contest := ⟨nid, p.name, p.lat, p.lng, p.startTime, p.endTime,
      p.active, r⟩
    (Except.ok c, cs ++ [c])

/-- Whether a mandatory official-rules field is absent from the payload
(or, for the text fields, present but empty, which the spec classes as
absence of a non-empty mandatory field). -/
def ruleFieldBad (r : OfficialRulesPayload) (f : String) : Bool :=
  if f = "eligibilityText" then
    match r.eligibilityText with
    | none => true
    | some s => s == ""
  else if f = "sponsorName" then
    match r.sponsorName with
    | none => true
    | some s => s == ""
  else if f = "startDate" then r.startDate.isNone
  else if f = "endDate" then r.endDate.isNone
  else if f = "prizeValueUsd" then r.prizeValueUsd.isNone
  else false

lemma validateRules_bad (r : OfficialRulesPayload)
    (h : ruleFieldBad r "eligibilityText" = true
      ∨ ruleFieldBad r "sponsorName" = true
      ∨ ruleFieldBad r "startDate" = true
      ∨ ruleFieldBad r "endDate" = true
      ∨ ruleFieldBad r "prizeValueUsd" = true) :
    ∃ f, validateRules r = Except.error (Err.MissingRequiredField f)
      ∧ ruleFieldBad r f = true := by
  rcases hret : r.eligibilityText with _ | et
  · exact ⟨"eligibilityText", by simp [validateRules, requireText, hret],
      by simp [ruleFieldBad, hret]⟩
  · by_cases heq : et = ""
    · exact ⟨"eligibilityText", by simp [validateRules, requireText, hret, heq],
        by simp [ruleFieldBad, hret, heq]⟩
    · rcases hrsn : r.sponsorName with _ | sn
      · exact ⟨"sponsorName",
          by simp [validateRules, requireText, hret, heq, hrsn],
          by simp [ruleFieldBad, hrsn]⟩
      · by_cases hsq : sn = ""
        · exact ⟨"sponsorName",
            by simp [validateRules, requireText, hret, heq, hrsn, hsq],
            by simp [ruleFieldBad, hrsn, hsq]⟩
        · rcases hrsd : r.startDate with _ | sd
          · exact ⟨"startDate",
              by simp [validateRules, requireText, requireInstant, hret, heq,
                hrsn, hsq, hrsd],
              by simp [ruleFieldBad, hrsd]⟩
          · rcases hred : r.endDate with _ | ed
            · exact ⟨"endDate",
                by simp [validateRules, requireText, requireInstant, hret, heq,
                  hrsn, hsq, hrsd, hred],
                by simp [ruleFieldBad, hred]⟩
            · rcases hrpv : r.prizeValueUsd with _ | pv
              · exact ⟨"prizeValueUsd",
                  by simp [validateRules, requireText, requireInstant,
                    requirePrize, hret, heq, hrsn, hsq, hrsd, hred, hrpv],
                  by simp [ruleFieldBad, hrpv]⟩
              · exfalso
                simp [ruleFieldBad, hret, heq, hrsn, hsq, hrsd, hred, hrpv] at h

/-- Claim C7: when a contest-creation payload's official rules omit a
mandatory field (eligibilityText, sponsorName, startDate, endDate or
prizeValueUsd, absent or empty), `createContest` fails with
MissingRequiredField naming a genuinely missing field, no contest is
created (the stored list is unchanged), and in particular a payload
without eligibilityText fails naming eligibilityText. -/
theorem createContest_missing_field (p : ContestPayload) (nid : Nat)
    (cs : List Contest)
    (h : ruleFieldBad p.officialRules "eligibilityText" = true
      ∨ ruleFieldBad p.officialRules "sponsorName" = true
      ∨ ruleFieldBad p.officialRules "startDate" = true
      ∨ ruleFieldBad p.officialRules "endDate" = true
      ∨ ruleFieldBad p.officialRules "prizeValueUsd" = true) :
    (∃ f, (createContest p nid cs).1 = Except.error (Err.MissingRequiredField f)
      ∧ ruleFieldBad p.officialRules f = true)
    ∧ (createContest p nid cs).2 = cs
    ∧ (p.officialRules.eligibilityText = none →
        (createContest p nid cs).1
          = Except.error (Err.MissingRequiredField "eligibilityText")) := by
  obtain ⟨f, hval, hbad⟩ := validateRules_bad p.officialRules h
  refine ⟨⟨f, ?_, hbad⟩, ?_, ?_⟩
  · simp [createContest, hval]
  · simp [createContest, hval]
  · intro hnone
    simp [createContest, validateRules, requireText, hnone]

/-- Concrete payload whose official rules omit eligibilityText. -/
def badPayload : ContestPayload :=
  { name := "Incomplete Contest", lat := 37, lng := -122, startTime := 0,
    endTime := 100, active := true,
    officialRules :=
      { eligibilityText := none, sponsorName := some "Test Sponsor",
        startDate := some 0, endDate := some 100,
        prizeValueUsd := some 100, termsUrl := none } }

/-- Claim C7 witness: creating from the payload that omits
eligibilityText fails with MissingRequiredField eligibilityText and
leaves the contest store empty. -/
theorem createContest_missing_field_witness :
    (createContest badPayload 1 []).1
      = Except.error (Err.MissingRequiredField "eligibilityText")
    ∧ (createContest badPayload 1 []).2 = [] := by
  have H := createContest_missing_field badPayload 1 []
    (Or.inl (by decide))
  exact ⟨H.2.2 rfl, H.2.1⟩

/-- Modelled from the spec: a sparse official-rules update (sections 3,
4.6, 9); an absent field means the stored value is kept. -/
structure RulesUpdate where
  eligibilityText : Option String
  sponsorName : Option String
  startDate : Option Int
  endDate : Option Int
  prizeValueUsd : Option Rat
  termsUrl : Option String
  deriving DecidableEq, Repr

/-- Modelled from the spec: a sparse contest update (sections 3, 9). -/
structure ContestUpdate where
  name : Option String
  lat : Option Rat
  lng : Option Rat
  startTime : Option Int
  endTime : Option Int
  active : Option Bool
  officialRules : Option RulesUpdate
  deriving DecidableEq, Repr

/-- Field-by-field merge of a sparse rules update into the stored
record. -/
def mergeRules (r : OfficialRules) (u : RulesUpdate) : OfficialRules :=
  { eligibilityText := u.eligibilityText.getD r.eligibilityText
    sponsorName := u.sponsorName.getD r.sponsorName
    startDate := u.startDate.getD r.startDate
    endDate := u.endDate.getD r.endDate
    prizeValueUsd := u.prizeValueUsd.getD r.prizeValueUsd
    termsUrl := match u.termsUrl with
      | none => r.termsUrl
      | some t => some t }

/-- Field-by-field merge of a sparse contest update into the stored
contest; the id is never touched. -/
def applyUpdate (c : Contest) (u : ContestUpdate) : Contest :=
  { id := c.id
    name := u.name.getD c.name
    lat := u.lat.getD c.lat
    lng := u.lng.getD c.lng
    startTime := u.startTime.getD c.startTime
    endTime := u.endTime.getD c.endTime
    active := u.active.getD c.active
    officialRules := match u.officialRules with
      | none => c.officialRules
      | some ru => mergeRules c.officialRules ru }

/-- Validation of only the official-rules fields supplied by a sparse
update: supplied text fields must be non-empty and a supplied prize
value must be at least zero; absent fields are not examined. -/
def validateRulesUpdate (u : RulesUpdate) : Except Err Unit :=
  if u.eligibilityText = some "" then
    Except.error (Err.MissingRequiredField "eligibilityText")
  else if u.sponsorName = some "" then
    Except.error (Err.MissingRequiredField "sponsorName")
  else
    match u.prizeValueUsd with
    | some q => if q < 0 then
        Except.error (Err.MissingRequiredField "prizeValueUsd")
      else Except.ok ()
    | none => Except.ok ()

/-- Modelled from the spec: `updateContest` (sections 3, 4.6, 6, 9); the
endpoint implementation is missing from the repository.  Only fields
present in the partial payload are validated and merged; omitted fields
are untouched and not re-validated. -/
def updateContest (c : Contest) (u : ContestUpdate) : Except Err Contest :=
  match u.officialRules with
  | none => Except.ok (applyUpdate c u)
  | some ru =>
    match validateRulesUpdate ru with
    | Except.error e => Except.error e
    | Except.ok _ => Except.ok (applyUpdate c u)

/-- Claim C8: when `updateContest` succeeds, only the supplied fields
and supplied official-rules subfields of the stored contest change;
every omitted field keeps its stored value; and the omitted stored
fields are not re-validated, witnessed by the success of the same
update against any other stored contest. -/
theorem updateContest_merge_semantics (c : Contest) (u : ContestUpdate)
    (c2 : Contest) (h : updateContest c u = Except.ok c2) :
    c2.id = c.id
    ∧ (u.name = none → c2.name = c.name)
    ∧ (∀ v, u.name = some v → c2.name = v)
    ∧ (u.lat = none → c2.lat = c.lat)
    ∧ (u.lng = none → c2.lng = c.lng)
    ∧ (u.startTime = none → c2.startTime = c.startTime)
    ∧ (u.endTime = none → c2.endTime = c.endTime)
    ∧ (u.active = none → c2.active = c.active)
    ∧ (∀ b, u.active = some b → c2.active = b)
    ∧ (u.officialRules = none → c2.officialRules = c.officialRules)
    ∧ (∀ ru, u.officialRules = some ru →
        (ru.eligibilityText = none →
          c2.officialRules.eligibilityText = c.officialRules.eligibilityText)
        ∧ (ru.sponsorName = none →
            c2.officialRules.sponsorName = c.officialRules.sponsorName)
        ∧ (ru.startDate = none →
            c2.officialRules.startDate = c.officialRules.startDate)
        ∧ (ru.endDate = none →
            c2.officialRules.endDate = c.officialRules.endDate)
        ∧ (ru.prizeValueUsd = none →
            c2.officialRules.prizeValueUsd = c.officialRules.prizeValueUsd)
        ∧ (∀ q, ru.prizeValueUsd = some q →
            c2.officialRules.prizeValueUsd = q))
    ∧ (∀ c3 : Contest, ∃ c4, updateContest c3 u = Except.ok c4) := by
  have hc2 : c2 = applyUpdate c u ∧
      ∀ c3 : Contest, ∃ c4, updateContest c3 u = Except.ok c4 := by
    unfold updateContest at h
    cases hru : u.officialRules with
    | none =>
      rw [hru] at h
      exact ⟨(Except.ok.inj h).symm, fun c3 => ⟨applyUpdate c3 u, by
        unfold updateContest
        rw [hru]⟩⟩
    | some ru =>
      rw [hru] at h
      cases hvr : validateRulesUpdate ru with
      | error e => simp [hvr] at h
      | ok v =>
        simp [hvr] at h
        exact ⟨h.symm, fun c3 => ⟨applyUpdate c3 u, by
          unfold updateContest
          rw [hru]
          simp [hvr]⟩⟩
  obtain ⟨rfl, hok⟩ := hc2
  refine ⟨rfl, ?_, ?_, ?_, ?_, ?_, ?_, ?_, ?_, ?_, ?_, hok⟩
  · intro hn; simp [applyUpdate, hn]
  · intro v hn; simp [applyUpdate, hn]
  · intro hn; simp [applyUpdate, hn]
  · intro hn; simp [applyUpdate, hn]
  · intro hn; simp [applyUpdate, hn]
  · intro hn; simp [applyUpdate, hn]
  · intro hn; simp [applyUpdate, hn]
  · intro b hn; simp [applyUpdate, hn]
  · intro hn; simp [applyUpdate, hn]
  · intro ru hru
    refine ⟨?_, ?_, ?_, ?_, ?_, ?_⟩ <;>
      first
        | (intro hn; simp [applyUpdate, mergeRules, hru, hn])
        | (intro q hn; simp [applyUpdate, mergeRules, hru, hn])

/-- Concrete stored contest whose official rules would fail creation
validation (empty eligibilityText); used to show updates do not
re-validate omitted fields. -/
def cStale : Contest :=
  ⟨5, "Stale Contest", 37, -122, 0, 100, true,
    ⟨"", "Test Sponsor", 0, 100, 750, none⟩⟩

/-- Concrete sparse update supplying only the prize value. -/
def updPrize : ContestUpdate :=
  { name := none, lat := none, lng := none, startTime := none,
    endTime := none, active := none,
    officialRules := some
      { eligibilityText := none, sponsorName := none, startDate := none,
        endDate := none, prizeValueUsd := some 1500, termsUrl := none } }

/-- Concrete merged contest: only the prize value changed. -/
def cStaleMerged : Contest :=
  ⟨5, "Stale Contest", 37, -122, 0, 100, true,
    ⟨"", "Test Sponsor", 0, 100, 1500, none⟩⟩

/-- Claim C8 witness: updating only the prize value of the stored
contest (whose eligibilityText is empty, hence would fail creation
validation) succeeds, sets the prize to 1500 and keeps the empty
eligibilityText, the name and the active flag untouched. -/
theorem updateContest_merge_semantics_witness :
    cStaleMerged.officialRules.prizeValueUsd = 1500
    ∧ cStaleMerged.officialRules.eligibilityText
        = cStale.officialRules.eligibilityText
    ∧ cStaleMerged.name = cStale.name
    ∧ cStaleMerged.active = cStale.active := by
  have h : updateContest cStale updPrize = Except.ok cStaleMerged := by decide
  have H := updateContest_merge_semantics cStale updPrize cStaleMerged h
  obtain ⟨hru1, hru2, hru3, hru4, hru5, hru6⟩ := H.2.2.2.2.2.2.2.2.2.2.1 _ rfl
  exact ⟨hru6 1500 rfl, hru1 rfl, H.2.1 rfl, H.2.2.2.2.2.2.2.1 rfl⟩

/-- Sorted insertion of a (contest, distance) pair: ascending by
distance, ties broken by contest id ascending. -/
def insertByDist (p : Contest × Rat) :
    List (Contest × Rat) → List (Contest × Rat)
  | [] => [p]
  | q :: qs =>
    if p.2 < q.2 ∨ (p.2 = q.2 ∧ p.1.id < q.1.id) then p :: q :: qs
    else q :: insertByDist p qs

/-- Insertion sort of (contest, distance) pairs. -/
def sortEntries (l : List (Contest × Rat)) : List (Contest × Rat) :=
  l.foldr insertByDist []

/-- Distance filtering and ordering performed by a `nearby` search once
the query point is accepted: pair each candidate with its distance,
keep those within the radius, sort ascending. -/
def geoSearch (dist : Contest → Rat) (radius : Rat) (cands : List Contest) :
    List (Contest × Rat) :=
  sortEntries ((cands.map (fun c => (c, dist c))).filter
    (fun q => decide (q.2 ≤ radius)))

/-- Modelled from the spec: `nearby` of the GeoIndex (section 4.3); the
implementation is missing from the repository.  The great-circle
distance is an injected pure function (the spec treats GeoIndex as a
stateless function module); the query point is validated before any
search work. -/
def nearby (dist : Contest → Rat) (queryLat queryLng radius : Rat)
    (cands : List Contest) : Except Err (List (Contest × Rat)) :=
  if queryLat < -90 ∨ 90 < queryLat ∨ queryLng < -180 ∨ 180 < queryLng then
    Except.error Err.InvalidCoordinates
  else Except.ok (geoSearch dist radius cands)

/-- Claim C9: `nearby` fails with InvalidCoordinates exactly when the
query latitude is outside [-90, 90] or the query longitude is outside
[-180, 180]; whenever both are in range it performs the search and
returns its result, never raising InvalidCoordinates. -/
theorem nearby_coordinate_check (dist : Contest → Rat)
    (queryLat queryLng radius : Rat) (cands : List Contest) :
    ((queryLat < -90 ∨ 90 < queryLat ∨ queryLng < -180 ∨ 180 < queryLng) →
      nearby dist queryLat queryLng radius cands
        = Except.error Err.InvalidCoordinates)
    ∧ (-90 ≤ queryLat → queryLat ≤ 90 → -180 ≤ queryLng → queryLng ≤ 180 →
        nearby dist queryLat queryLng radius cands
          = Except.ok (geoSearch dist radius cands)) := by
  constructor
  · intro h
    simp [nearby, h]
  · intro h1 h2 h3 h4
    have hno : ¬ (queryLat < -90 ∨ 90 < queryLat ∨ queryLng < -180
        ∨ 180 < queryLng) := by
      push_neg
      exact ⟨by linarith, by linarith, by linarith, by linarith⟩
    simp [nearby, hno]

/-- Claim C9 witness: the query point (999, 999) is rejected with
InvalidCoordinates, while the in-range point (37, -122) performs the
search (over an empty candidate list it returns the empty result). -/
theorem nearby_coordinate_check_witness :
    nearby (fun _ => (0 : Rat)) 999 999 50 []
      = Except.error Err.InvalidCoordinates
    ∧ nearby (fun _ => (0 : Rat)) 37 (-122) 50 [] = Except.ok [] := by
  refine ⟨(nearby_coordinate_check (fun _ => (0 : Rat)) 999 999 50 []).1
    (by norm_num), ?_⟩
  have H := (nearby_coordinate_check (fun _ => (0 : Rat)) 37 (-122) 50 []).2
    (by norm_num) (by norm_num) (by norm_num) (by norm_num)
  simpa [geoSearch, sortEntries] using H

end Contestlet

